import Mathlib

/-
Verification development for the pytest-revealtype-injector repository.

Shallow embedding of the core correlation-and-verification engine:
* shared data model (`FilePos`, `VarType`, result tables) mirroring the
  NamedTuple-based models used throughout the code base;
* the checker adapters' `run_typechecker_on` diagnostic-stream processing
  (`adapter/mypy_.py`, `adapter/pyright_.py`, `_testutils/mypy_adapter.py`),
  including the message regexes, the type-text sanitizer and the 0-based to
  1-based line normalization;
* the name resolver of `_testutils/mypy_adapter.py` (`NameCollector`), an AST
  transformer with dotted-chain fallback and the three-stage bare-name rules;
* the verification engine `reveal_type_wrapper` of `_testutils/rt_wrapper.py`,
  with the variable-name reconciliation stage, the structural check and the
  single-level unparameterized-subscript retry.

External collaborators (subprocess invocation, json decoding, the typeguard
structural-check primitive, Python `eval`/`importlib` and live namespaces) are
modelled as oracle parameters, as the spec classifies them outside the core.
-/

/-- Position model. Modelled from the spec: `FilePos` lives in the shared
models module (`models.py` / `_testutils/common.py`), which is not part of the
provided sources; the spec describes it as an immutable, hashable pair of
normalized file name and 1-based line number, and every use in the provided
sources constructs it as `FilePos(file, lineno)`. -/
structure FilePos where
  file : String
  lineno : Nat
deriving DecidableEq, Repr

/-- TypeRecord model. Modelled from the spec: `VarType` lives in the shared
models module, not in the provided sources; the spec describes it as an
optional variable name plus a type reference, and the sources construct it as
`VarType(var, ForwardRef(text))`. The type reference is kept as its forward
argument text. -/
structure VarType where
  var : Option String
  type : String
deriving DecidableEq, Repr

/-- A result table: Python dict from `FilePos` to `VarType`, modelled as an
association list with insert-or-replace assignment. -/
abbrev Table := List (FilePos × VarType)

/-- Python dict lookup `table[pos]`: first matching key. -/
def lookupTable : Table → FilePos → Option VarType
  | [], _ => none
  | (q, w) :: rest, p => if q = p then some w else lookupTable rest p

/-- Python dict assignment `table[pos] = v`: replace in place, else append. -/
def insertTable : Table → FilePos → VarType → Table
  | [], p, v => [(p, v)]
  | (q, w) :: rest, p, v =>
    if q = p then (p, v) :: rest else (q, w) :: insertTable rest p v

/-- Helper: character-list prefix test. -/
def isPrefOf : List Char → List Char → Bool
  | [], _ => true
  | _ :: _, [] => false
  | a :: as, b :: bs => a == b && isPrefOf as bs

/-- Helper: substring test, `pat` occurs somewhere in the second list. -/
def hasSub (pat : List Char) : List Char → Bool
  | [] => isPrefOf pat []
  | c :: rest => isPrefOf pat (c :: rest) || hasSub pat rest

/-- Python `pat in s` on strings. -/
def strContains (s pat : String) : Bool := hasSub pat.toList s.toList

/-- `pathlib.Path(s).name` restricted to forward-slash paths: the text after
the last separator. -/
def basenameAux : List Char → List Char → List Char
  | acc, [] => acc
  | _, '/' :: rest => basenameAux [] rest
  | acc, c :: rest => basenameAux (acc ++ [c]) rest

/-- `pathlib.Path(s).name` as used on checker-reported file paths and caller
frame file names. -/
def basename (s : String) : String := ⟨basenameAux [] s.toList⟩

/-- `str.translate` deletion of the decoration characters mypy injects into
type text (`adapter/mypy_.py` line 170, `_testutils/mypy_adapter.py` line 56):
`m["type"].translate(\x7bord(c): None for c in "*?="\x7d)`. -/
def sanitize (s : String) : String :=
  ⟨s.toList.filter (fun c => !(c == '*' || c == '?' || c == '='))⟩

/-- Python `re` semantics helper: `$` also matches just before one final
newline, so drop a single trailing newline before matching. -/
def chopNl (l : List Char) : List Char :=
  match l.reverse with
  | '\n' :: rest => rest.reverse
  | _ => l

/-- Strip an exact prefix from a character list, or fail. -/
def stripPref : List Char → List Char → Option (List Char)
  | [], l => some l
  | _ :: _, [] => none
  | a :: as, b :: bs => if a = b then stripPref as bs else none

/-- Capture for the lazy group in `(?P<type>.+?)"$`: the remaining text must
end in a double quote, and the capture must be nonempty and newline-free
(`.` never matches a newline). -/
def tyCapture (l : List Char) : Option String :=
  match l.reverse with
  | '"' :: rest =>
    let ty := rest.reverse
    if !ty.isEmpty && !ty.contains '\n' then some (⟨ty⟩ : String) else none
  | _ => none

/-- The fixed text of mypy's reveal message up to the opening quote, from
`^Revealed type is "(?P<type>.+?)"$`. -/
def preMypy : List Char := "Revealed type is \"".toList

/-- Mypy message regex `^Revealed type is "(?P<type>.+?)"$` applied with
`re.match`, returning the type capture. -/
def parseMypyMsg (msg : String) : Option String :=
  match stripPref preMypy (chopNl msg.toList) with
  | none => none
  | some rest => tyCapture rest

/-- The fixed text of pyright's reveal message up to the opening quote, from
`^Type of "(?P<var>.+?)" is "(?P<type>.+?)"$`. -/
def prePyright : List Char := "Type of \"".toList

/-- The separator between the two lazy captures of the pyright regex. -/
def sepPyright : List Char := "\" is \"".toList

/-- Lazy matching with backtracking for `(?P<var>.+?)" is "(?P<type>.+?)"$`:
grow the var capture one character at a time (never across a newline), and at
each step try the separator followed by a successful type capture. -/
def pyrAux : List Char → List Char → Option (String × String)
  | [], _ => none
  | c :: rest, vAcc =>
    if c = '\n' then none
    else
      match stripPref sepPyright rest with
      | some r =>
        match tyCapture r with
        | some ty => some ((⟨vAcc ++ [c]⟩ : String), ty)
        | none => pyrAux rest (vAcc ++ [c])
      | none => pyrAux rest (vAcc ++ [c])

/-- Pyright message regex `^Type of "(?P<var>.+?)" is "(?P<type>.+?)"$`
applied with `re.match`, returning the var and type captures. -/
def parsePyrightMsg (msg : String) : Option (String × String) :=
  match stripPref prePyright (chopNl msg.toList) with
  | none => none
  | some rest => pyrAux rest []

/-- One decoded line of mypy's `--output=json` stream
(`_MypyDiagObj` in `adapter/mypy_.py` / `_testutils/mypy_adapter.py`). -/
structure MypyDiag where
  file : String
  line : Nat
  severity : String
  message : String
deriving DecidableEq, Repr

/-- One record of pyright's `--outputjson` `generalDiagnostics` array;
`line` is `range.start.line`, which pyright reports 0-based. -/
structure PyrightDiag where
  file : String
  line : Nat
  severity : String
  message : String
deriving DecidableEq, Repr

/-- Errors raised along the verification path. `tcError` is the repository's
`TypeCheckerError(message, file, lineno)`; `typeCheckFail` is typeguard's
`TypeCheckError`; `typeErr` a Python `TypeError`; `collectorErr` a name
resolution failure escaping from a `NameCollector`; `parseFail` a
`SyntaxError` from `ast.parse`; `assertFail` a failed `assert`. -/
inductive NCErr
  | nameError (msg : String)
  | keyError (key : String)
  | attrError (attrName : String)
deriving DecidableEq, Repr

inductive WrapError
  | tcError (msg : String) (file : Option String) (line : Option Nat)
  | typeCheckFail (msg : String)
  | typeErr (msg : String)
  | collectorErr (e : NCErr)
  | parseFail
  | assertFail
deriving DecidableEq, Repr

/-- The error `adapter/mypy_.py` lines 156-162 raises for a non-note
diagnostic: message text, raw reported file, raw reported line. -/
def mypyDiagError (rc : Int) (d : MypyDiag) : WrapError :=
  .tcError ("Mypy " ++ d.severity ++ " with exit code " ++ toString rc ++ ": "
      ++ d.message)
    (some d.file) (some d.line)

/-- Diagnostic-stream loop of `_MypyAdapter.run_typechecker_on`
(`adapter/mypy_.py` lines 150-172). The table is mutated in place by the
Python code, so the model returns the table state alongside the optional
raised error. Keys use `pathlib.Path(diag["file"]).name` and the raw reported
line; type text is sanitized; the variable name is always absent. -/
def mypyRunGo (rc : Int) : List MypyDiag → Table → Table × Option WrapError
  | [], t => (t, none)
  | d :: rest, t =>
    if d.severity ≠ "note" then (t, some (mypyDiagError rc d))
    else
      match parseMypyMsg d.message with
      | none => mypyRunGo rc rest t
      | some ty =>
        mypyRunGo rc rest
          (insertTable t ⟨basename d.file, d.line⟩ ⟨none, sanitize ty⟩)

/-- `_MypyAdapter.run_typechecker_on` over an already-decoded diagnostic
stream: a nonempty stderr raises first, then the stream loop runs. -/
def mypyRun (stderr : String) (rc : Int) (diags : List MypyDiag) (t : Table) :
    Table × Option WrapError :=
  if stderr ≠ "" then (t, some (.tcError stderr none none))
  else mypyRunGo rc diags t

/-- Diagnostic-stream loop of `_testutils/mypy_adapter.py run_typechecker_on`
(lines 39-58). Unlike the adapter version, the table key keeps
`diag["file"]` exactly as reported, with no basename normalization, and the
raised error formats as `Mypy <severity> :'<message>'`. -/
def tmypyRunGo : List MypyDiag → Table → Table × Option WrapError
  | [], t => (t, none)
  | d :: rest, t =>
    if d.severity ≠ "note" then
      (t, some (.tcError ("Mypy " ++ d.severity ++ " :\x27" ++ d.message ++ "\x27")
        (some d.file) (some d.line)))
    else
      match parseMypyMsg d.message with
      | none => tmypyRunGo rest t
      | some ty =>
        tmypyRunGo rest (insertTable t ⟨d.file, d.line⟩ ⟨none, sanitize ty⟩)

/-- First error-severity record of pyright's diagnostics array, as scanned by
the `if proc.returncode:` loop in `adapter/pyright_.py` lines 72-80. -/
def firstErrorDiag : List PyrightDiag → Option PyrightDiag
  | [] => none
  | d :: rest => if d.severity = "error" then some d else firstErrorDiag rest

/-- Recording loop of `_PyrightAdapter.run_typechecker_on`
(`adapter/pyright_.py` lines 81-89): keep only `information` severity records
whose message matches the reveal regex; store at basename file and
0-based-plus-one line, with the var capture as variable name and the raw type
capture (no sanitizing). -/
def pyrightRecord : List PyrightDiag → Table → Table
  | [], t => t
  | d :: rest, t =>
    if d.severity ≠ "information" then pyrightRecord rest t
    else
      match parsePyrightMsg d.message with
      | none => pyrightRecord rest t
      | some (v, ty) =>
        pyrightRecord rest
          (insertTable t ⟨basename d.file, d.line + 1⟩ ⟨some v, ty⟩)

/-- `_PyrightAdapter.run_typechecker_on` over the decoded report: nonempty
stderr raises; with a nonzero exit code the error scan runs before any
recording and raises on the first error-severity record (normalizing its line
to 1-based); otherwise the recording loop fills the table. -/
def pyrightRun (stderr : String) (rc : Int) (diags : List PyrightDiag)
    (t : Table) : Table × Option WrapError :=
  if stderr ≠ "" then (t, some (.tcError stderr none none))
  else if rc ≠ 0 then
    match firstErrorDiag diags with
    | some d =>
      (t, some (.tcError d.message (some (basename d.file)) (some (d.line + 1))))
    | none => (pyrightRecord diags t, none)
  else (pyrightRecord diags t, none)

/-- Mini AST for parsed type-reference expressions: bare names, dotted
attribute chains, subscripted generics and other constant-like leaves. -/
inductive TExpr
  | name (id : String)
  | attr (value : TExpr) (attrName : String)
  | subscript (value : TExpr) (slice : TExpr)
  | const (text : String)
deriving DecidableEq, Repr

/-- `ast.unparse` on the mini AST. -/
def unparse : TExpr → String
  | .name n => n
  | .attr v a => unparse v ++ "." ++ a
  | .subscript v s => unparse v ++ "[" ++ unparse s ++ "]"
  | .const c => c

/-- A runtime object handle for the resolution scope (module, class or other
live object), abstracted as an opaque tag. -/
abbrev RtObj := String

/-- The resolution cache `self.collected`: Python dict from identifier text
to runtime object. -/
abbrev Cache := List (String × RtObj)

def lookupCache : Cache → String → Option RtObj
  | [], _ => none
  | (k, o) :: rest, n => if k = n then some o else lookupCache rest n

def insertCache : Cache → String → RtObj → Cache
  | [], n, o => [(n, o)]
  | (k, w) :: rest, n, o =>
    if k = n then (n, o) :: rest else (k, w) :: insertCache rest n o

/-- External-collaborator oracles for the name resolver:
`importMod` is `importlib.import_module` (`none` = `ModuleNotFoundError`);
`evalOk` is whether `eval(name, globalns, localns | collected)` succeeds for
the caller's live namespaces merged with the given cache;
`attrOf` is `getattr`/`hasattr` on a runtime object. -/
structure NameEnv where
  importMod : String → Option RtObj
  evalOk : String → Cache → Bool
  attrOf : RtObj → String → Option RtObj

/-- Collector state: the resolution cache plus the `modified` rewrite flag. -/
structure CState where
  collected : Cache
  modified : Bool
deriving DecidableEq, Repr

/-- The cache preloaded on `NameCollector` (`_testutils/mypy_adapter.py`
lines 63-66): the builtins and typing modules under their own names. -/
def initialCache (builtinsObj typingObj : RtObj) : Cache :=
  [("builtins", builtinsObj), ("typing", typingObj)]

/-- The mypy `NameCollector` of `_testutils/mypy_adapter.py` as an AST
transformer. The boolean argument models the `is_parent` marker painted on
an Attribute node's value child: `true` inside a dotted chain, `false` on an
outermost attribute node or any node reached through a non-attribute parent.

`visit_Attribute` (lines 78-104): on the outermost node, try to import the
unparsed dotted prefix; on `ModuleNotFoundError`, try `eval` of the bare
trailing name against caller namespace plus cache — on success rewrite the
node to the bare name with `modified = True`, on `NameError` raise naming
both candidate forms. Past that check, transform the value child, then store
`getattr(collected[prefixText], attrName)` under the full unparsed text
(a missing cache key is a `KeyError`, a missing attribute an
`AttributeError`).

`visit_Name` (lines 110-132): `eval` against caller namespace plus cache;
else import as a module and cache it; else probe the builtins then the typing
namespace for the attribute; else raise `NameError`.

Other node shapes get `generic_visit`: children transformed, node rebuilt. -/
def tvisit (env : NameEnv) : Bool → TExpr → CState → Except NCErr (TExpr × CState)
  | isP, .attr v a, st =>
    if !isP && (env.importMod (unparse v)).isNone then
      if env.evalOk a st.collected then .ok (.name a, ⟨st.collected, true⟩)
      else
        .error (.nameError
          ("Cannot resolve \"" ++ unparse v ++ "\" or \"" ++ a ++ "\""))
    else
      match tvisit env true v st with
      | .error e => .error e
      | .ok (v', st') =>
        match lookupCache st'.collected (unparse v) with
        | none => .error (.keyError (unparse v))
        | some obj =>
          match env.attrOf obj a with
          | none => .error (.attrError a)
          | some r =>
            .ok (.attr v' a,
              ⟨insertCache st'.collected (unparse (.attr v' a)) r, st'.modified⟩)
  | _, .name n, st =>
    if env.evalOk n st.collected then .ok (.name n, st)
    else
      match env.importMod n with
      | some mod => .ok (.name n, ⟨insertCache st.collected n mod, st.modified⟩)
      | none =>
        match lookupCache st.collected "builtins" with
        | none => .error (.keyError "builtins")
        | some b =>
          match env.attrOf b n with
          | some o => .ok (.name n, ⟨insertCache st.collected n o, st.modified⟩)
          | none =>
            match lookupCache st.collected "typing" with
            | none => .error (.keyError "typing")
            | some ty =>
              match env.attrOf ty n with
              | some o =>
                .ok (.name n, ⟨insertCache st.collected n o, st.modified⟩)
              | none => .error (.nameError ("Cannot resolve \"" ++ n ++ "\""))
  | _, .subscript v s, st =>
    match tvisit env false v st with
    | .error e => .error e
    | .ok (v', st') =>
      match tvisit env false s st' with
      | .error e => .error e
      | .ok (s', st'') => .ok (.subscript v' s', st'')
  | _, .const c, st => .ok (.const c, st)

/-- Outcome of one `typeguard.check_type_internal` call (an external
collaborator): success, a `TypeCheckError` mismatch, or a Python
`TypeError`. -/
inductive CheckOutcome
  | passed
  | typeCheckError (msg : String)
  | typeError (msg : String)
deriving DecidableEq, Repr

/-- The structural-check portion of `reveal_type_wrapper`
(`_testutils/rt_wrapper.py` lines 136-161), for one adapter. `check` is the
oracle for `check_type_internal` on a forward-reference text. A
`TypeCheckError` is re-raised with the adapter id prefixed. A `TypeError`
whose message lacks "is not subscriptable" propagates; with it, the reference
AST body must be a Subscript (else the `assert` fails), and the check is
retried once on the unparsed subscript value with the parameters dropped; a
`TypeCheckError` from the retry is again attributed to the adapter, and any
other exception from the retry propagates. -/
def checkPhase (check : String → CheckOutcome) (adapterId : String)
    (refTxt : String) (refAst : TExpr) : Option WrapError :=
  match check refTxt with
  | .passed => none
  | .typeCheckError m => some (.typeCheckFail ("(" ++ adapterId ++ ") " ++ m))
  | .typeError m =>
    if strContains m "is not subscriptable" = false then some (.typeErr m)
    else
      match refAst with
      | .subscript v _ =>
        match check (unparse v) with
        | .passed => none
        | .typeCheckError m2 =>
          some (.typeCheckFail ("(" ++ adapterId ++ ") " ++ m2))
        | .typeError m2 => some (.typeErr m2)
      | _ => some .assertFail

/-- Python `str()` of an optional string, as interpolated into the variable
name mismatch message (`None` for an absent name). -/
def pyOptStr : Option String → String
  | none => "None"
  | some s => s

/-- An adapter as seen by the verification engine: its id and its result
table. -/
structure Adapter where
  id : String
  table : Table
deriving DecidableEq, Repr

/-- Variable-name reconciliation of `reveal_type_wrapper`
(`_testutils/rt_wrapper.py` lines 116-123). Python truthiness of
`tc_result.var` guards the check: a present, nonempty name must equal the
recovered name or a `TypeCheckerError` is raised; otherwise (absent or empty
name) the recovered name is backfilled into the stored record in place. -/
def nameCheckStage (vn : Option String) (pos : FilePos) (tc : VarType)
    (ad : Adapter) : Except WrapError Adapter :=
  match tc.var with
  | some v =>
    if v ≠ "" then
      if vn ≠ some v then
        .error (.tcError
          ("Variable name should be \"" ++ v ++ "\", but got \""
            ++ pyOptStr vn ++ "\"")
          (some pos.file) (some pos.lineno))
      else .ok ad
    else .ok { ad with table := insertTable ad.table pos ⟨vn, tc.type⟩ }
  | none => .ok { ad with table := insertTable ad.table pos ⟨vn, tc.type⟩ }

/-- External-collaborator oracles for the verification engine:
`parse` is `ast.parse(text, mode="eval")` returning the expression body
(`none` = `SyntaxError`); `collect` runs the adapter's `NameCollector` over
the tree, yielding the possibly rewritten tree and the `modified` flag (or a
name resolution failure); `check` is `check_type_internal` for the wrapped
value under the adapter's merged namespaces. Both take the adapter id first.
-/
structure Oracles where
  parse : String → Option TExpr
  collect : String → TExpr → Except NCErr (TExpr × Bool)
  check : String → String → CheckOutcome

/-- One iteration of the adapter loop in `reveal_type_wrapper`
(`_testutils/rt_wrapper.py` lines 108-161): look up the record at the call
position (a `KeyError` becomes `TypeCheckerError "No inferred type from
<id>"`); reconcile the variable name; parse the stored forward-reference
text; run the adapter's name collector, switching to the rewritten tree and
its unparsed text when the `modified` flag is set; then run the structural
check with the subscript fallback. -/
def adapterStep (env : Oracles) (vn : Option String) (pos : FilePos)
    (ad : Adapter) : Except WrapError Adapter :=
  match lookupTable ad.table pos with
  | none =>
    .error (.tcError ("No inferred type from " ++ ad.id)
      (some pos.file) (some pos.lineno))
  | some tc =>
    match nameCheckStage vn pos tc ad with
    | .error e => .error e
    | .ok ad' =>
      match env.parse tc.type with
      | none => .error .parseFail
      | some refAst =>
        match env.collect ad.id refAst with
        | .error e => .error (.collectorErr e)
        | .ok (newAst, modified) =>
          let refTxt := if modified then unparse newAst else tc.type
          let refAst' := if modified then newAst else refAst
          match checkPhase (env.check ad.id) ad.id refTxt refAst' with
          | some e => .error e
          | none => .ok ad'

/-- The adapter loop of `reveal_type_wrapper`: each enabled adapter is
verified in order, threading the (possibly backfilled) tables; the first
failure aborts the call. -/
def revealTypeGo (env : Oracles) (vn : Option String) (pos : FilePos) :
    List Adapter → Except WrapError (List Adapter)
  | [] => .ok []
  | ad :: rest =>
    match adapterStep env vn pos ad with
    | .error e => .error e
    | .ok ad' =>
      match revealTypeGo env vn pos rest with
      | .error e => .error e
      | .ok rest' => .ok (ad' :: rest')

/-- `reveal_type_wrapper` (`_testutils/rt_wrapper.py` lines 55-163): compute
the position from the caller frame's file basename and line, run every
adapter, and return the wrapped value unchanged on success. `vn` is the
expression text recovered by `_get_var_name`. -/
def reveal_type_wrapper {α : Type} (env : Oracles) (vn : Option String)
    (callerFile : String) (callerLine : Nat) (adapters : List Adapter)
    (var : α) : Except WrapError (List Adapter × α) :=
  match revealTypeGo env vn ⟨basename callerFile, callerLine⟩ adapters with
  | .error e => .error e
  | .ok ads => .ok (ads, var)

/-- Boolean success test for `Except`. -/
def exceptOk {ε α : Type} : Except ε α → Bool
  | .ok _ => true
  | .error _ => false

/-- Decidable equality on `Except`, to evaluate concrete run outcomes. -/
instance {ε α : Type} [DecidableEq ε] [DecidableEq α] :
    DecidableEq (Except ε α) := fun x y =>
  match x, y with
  | .ok a, .ok b =>
    match decEq a b with
    | isTrue h => isTrue (h ▸ rfl)
    | isFalse h => isFalse fun hc => h (Except.ok.inj hc)
  | .error a, .error b =>
    match decEq a b with
    | isTrue h => isTrue (h ▸ rfl)
    | isFalse h => isFalse fun hc => h (Except.error.inj hc)
  | .ok _, .error _ => isFalse fun hc => Except.noConfusion hc
  | .error _, .ok _ => isFalse fun hc => Except.noConfusion hc

/-- Sample oracles for concrete evaluations: every forward reference parses
to a bare name, no collector rewrites happen, every structural check passes.
-/
def sampleOracles : Oracles where
  parse := fun s => some (.name s)
  collect := fun _ e => .ok (e, false)
  check := fun _ _ => .passed

/-- Sample name resolver oracles: no module imports succeed, only the name
"ok" evaluates in the caller namespace, no object has attributes. -/
def sampleNameEnv : NameEnv where
  importMod := fun _ => none
  evalOk := fun n _ => n == "ok"
  attrOf := fun _ _ => none

/-- Sample structural-check oracle: the specialized reference `E[int]` hits a
not-subscriptable `TypeError`, the bare base `E` is a genuine mismatch. -/
def sampleCheck : String → CheckOutcome := fun s =>
  if s == "E[int]" then .typeError "type object is not subscriptable"
  else if s == "E" then .typeCheckError "mismatch here"
  else .passed

def mypyNoteDiag : MypyDiag := ⟨"t.py", 1, "note", "Revealed type is \"builtins.int\""⟩

def mypyErrorDiag : MypyDiag := ⟨"t.py", 2, "error", "boom"⟩

def mypyWarnDiag : MypyDiag := ⟨"t.py", 3, "warning", "oops"⟩

def pyrightWarnDiag : PyrightDiag := ⟨"t.py", 2, "warning", "w"⟩

def pyrightInfoDiag : PyrightDiag := ⟨"t.py", 3, "information", "Type of \"x\" is \"int\""⟩

def pos5 : FilePos := ⟨"t.py", 5⟩

/-- A record whose variable name is present but empty. -/
def emptyVarRecord : VarType := ⟨some "", "int"⟩

def adEmptyVar : Adapter := ⟨"pyright", [(pos5, emptyVarRecord)]⟩

/-- An adapter whose recorded variable name matches the sample call site. -/
def sampleAd : Adapter := ⟨"pyright", [(pos5, ⟨some "x", "int"⟩)]⟩

/-- A table as built by `_testutils/mypy_adapter.py`: the key keeps the
directory components of the checker-reported path. -/
def tmypyAd : Adapter := ⟨"mypy", [(⟨"tests/t.py", 5⟩, ⟨none, "int"⟩)]⟩

/-- Membership in a table after an insert-or-replace assignment comes either
from the new binding or from the original table. -/
theorem mem_insertTable {t : Table} {p q : FilePos} {v w : VarType}
    (h : (p, v) ∈ insertTable t q w) : (p = q ∧ v = w) ∨ (p, v) ∈ t := by
  induction t with
  | nil =>
    simp [insertTable] at h
    exact Or.inl ⟨h.1, h.2⟩
  | cons e rest ih =>
    obtain ⟨k, u⟩ := e
    by_cases hk : k = q
    · simp [insertTable, hk] at h
      rcases h with ⟨h1, h2⟩ | h2
      · exact Or.inl ⟨h1, h2⟩
      · exact Or.inr (List.mem_cons_of_mem _ h2)
    · simp [insertTable, hk] at h
      rcases h with ⟨h1, h2⟩ | h2
      · exact Or.inr (by simp [h1, h2])
      · rcases ih h2 with h3 | h3
        · exact Or.inl h3
        · exact Or.inr (List.mem_cons_of_mem _ h3)

/-- The pyright error scan only ever surfaces an error-severity record. -/
theorem firstErrorDiag_severity {l : List PyrightDiag} {d : PyrightDiag}
    (h : firstErrorDiag l = some d) : d.severity = "error" := by
  induction l with
  | nil => simp [firstErrorDiag] at h
  | cons a rest ih =>
    by_cases ha : a.severity = "error"
    · simp [firstErrorDiag, ha] at h
      simpa [← h] using ha
    · simp [firstErrorDiag, ha] at h
      exact ih h

/-- Claim C1: for every call to the verification wrapper that completes
without raising — every enabled adapter's recorded type was consistent with
the runtime type of the argument — the wrapper returns its input value
unchanged. -/
theorem wrapper_returns_input_unchanged {α : Type} (env : Oracles)
    (vn : Option String) (f : String) (l : Nat) (ads ads' : List Adapter)
    (v v' : α)
    (h : reveal_type_wrapper env vn f l ads v = .ok (ads', v')) : v' = v := by
  unfold reveal_type_wrapper at h
  cases hgo : revealTypeGo env vn ⟨basename f, l⟩ ads with
  | error e => rw [hgo] at h; cases h
  | ok a =>
    rw [hgo] at h
    simp only [Except.ok.injEq, Prod.mk.injEq] at h
    exact h.2.symm

/-- Witness for C1: a concrete call where both the position lookup and the
variable name agree and the structural check passes returns 42 unchanged. -/
theorem wrapper_returns_input_unchanged_witness :
    reveal_type_wrapper sampleOracles (some "x") "tests/t.py" 5 [sampleAd]
        (42 : Nat) = .ok ([sampleAd], 42) ∧ (42 : Nat) = 42 :=
  ⟨by decide, wrapper_returns_input_unchanged sampleOracles (some "x")
    "tests/t.py" 5 [sampleAd] [sampleAd] 42 42 (by decide)⟩

/-- Claim C9: stripping the decoration characters `*`, `?`, `=` from a
type-text string is idempotent. -/
theorem sanitize_idempotent (s : String) : sanitize (sanitize s) = sanitize s := by
  unfold sanitize
  show (⟨List.filter _ (List.filter _ s.data)⟩ : String) = _
  rw [List.filter_filter]
  congr 1
  apply List.filter_congr
  intro c _
  cases hc : !(c == '*' || c == '?' || c == '=') <;> simp [hc]

/-- Counterexample to claim C2: a mypy run whose stream holds a type-reveal
note followed by an error-severity diagnostic does raise, but the result
table has received the note's entry — it is not unchanged. -/
theorem mypy_error_run_records_prior_notes_cex :
    (∃ d ∈ [mypyNoteDiag, mypyErrorDiag], d.severity = "error") ∧
    ((mypyRun "" 1 [mypyNoteDiag, mypyErrorDiag] []).2).isSome = true ∧
    (mypyRun "" 1 [mypyNoteDiag, mypyErrorDiag] []).1 =
      [(⟨"t.py", 1⟩, ⟨none, "builtins.int"⟩)] := by
  refine ⟨⟨mypyErrorDiag, by decide, rfl⟩, by decide, by decide⟩

/-- Claim C2 as amended: an error-severity diagnostic makes
`run_typechecker_on` raise — unconditionally for mypy, and for pyright when
the checker exit code is nonzero, in which case the raise precedes any
recording so the pyright table receives zero entries from the run; the mypy
table, by contrast, can already hold entries from type-reveal notes that
precede the error in the stream. -/
theorem error_diag_raises_amended :
    (∀ (rc : Int) (diags : List MypyDiag) (t : Table),
      (∃ d ∈ diags, d.severity = "error") →
      ((mypyRunGo rc diags t).2).isSome = true) ∧
    (∀ (rc : Int) (diags : List PyrightDiag) (t : Table) (d : PyrightDiag),
      rc ≠ 0 → firstErrorDiag diags = some d →
      pyrightRun "" rc diags t =
        (t, some (.tcError d.message (some (basename d.file))
          (some (d.line + 1))))) ∧
    (∃ (rc : Int) (diags : List MypyDiag),
      (∃ d ∈ diags, d.severity = "error") ∧ (mypyRunGo rc diags []).1 ≠ []) := by
  refine ⟨?_, ?_, ?_⟩
  · intro rc diags
    induction diags with
    | nil =>
      intro t h
      rcases h with ⟨d, hd, _⟩
      cases hd
    | cons a rest ih =>
      intro t h
      rcases h with ⟨d, hd, hsev⟩
      by_cases ha : a.severity = "note"
      · have hdr : d ∈ rest := by
          rcases List.mem_cons.mp hd with h1 | h1
          · exfalso; rw [h1, ha] at hsev; exact absurd hsev (by decide)
          · exact h1
        cases hm : parseMypyMsg a.message with
        | none =>
          have hrec := ih t ⟨d, hdr, hsev⟩
          simpa [mypyRunGo, ha, hm] using hrec
        | some ty =>
          have hrec := ih
            (insertTable t ⟨basename a.file, a.line⟩ ⟨none, sanitize ty⟩)
            ⟨d, hdr, hsev⟩
          simpa [mypyRunGo, ha, hm] using hrec
      · simp [mypyRunGo, ha]
  · intro rc diags t d hrc hfe
    simp [pyrightRun, hrc, hfe]
  · exact ⟨1, [mypyNoteDiag, mypyErrorDiag],
      ⟨mypyErrorDiag, by decide, rfl⟩, by decide⟩

/-- Witness for the amended C2: a stream holding only an error diagnostic
makes the mypy run raise, and a nonzero-exit pyright run with an error
diagnostic raises with its table untouched. -/
theorem error_diag_raises_amended_witness :
    ((mypyRunGo 1 [mypyErrorDiag] []).2).isSome = true ∧
    pyrightRun "" 1 [⟨"t.py", 4, "error", "late"⟩] [] =
      ([], some (.tcError "late" (some "t.py") (some 5))) :=
  ⟨error_diag_raises_amended.1 1 [mypyErrorDiag] []
      ⟨mypyErrorDiag, by decide, rfl⟩,
    error_diag_raises_amended.2.1 1 [⟨"t.py", 4, "error", "late"⟩] []
      ⟨"t.py", 4, "error", "late"⟩ (by decide) (by decide)⟩

/-- Counterexample to claim C3: a pyright run that parses a warning-severity
diagnostic (with nonzero exit code) raises nothing at all — the warning is
silently skipped, not surfaced as a checker-diagnostic error. -/
theorem pyright_warning_skipped_cex :
    pyrightWarnDiag.severity ≠ "information" ∧
    pyrightRun "" 1 [pyrightWarnDiag] [] = ([], none) := by
  refine ⟨by decide, by decide⟩

/-- Claim C3 as amended: the mypy adapter raises on every parsed diagnostic
whose severity is not "note", carrying the diagnostic's message, file and
line; the pyright adapter's recording loop skips every non-"information"
diagnostic without recording it, and a pyright run raises only for a
severity-"error" diagnostic and only when the exit code is nonzero. -/
theorem non_note_diag_fatal_amended :
    (∀ (rc : Int) (d : MypyDiag) (rest : List MypyDiag) (t : Table),
      d.severity ≠ "note" →
      mypyRunGo rc (d :: rest) t = (t, some (mypyDiagError rc d))) ∧
    (∀ (d : PyrightDiag) (rest : List PyrightDiag) (t : Table),
      d.severity ≠ "information" →
      pyrightRecord (d :: rest) t = pyrightRecord rest t) ∧
    (∀ (rc : Int) (diags : List PyrightDiag) (t : Table) (e : WrapError),
      (pyrightRun "" rc diags t).2 = some e →
      rc ≠ 0 ∧ ∃ d, firstErrorDiag diags = some d ∧ d.severity = "error" ∧
        e = .tcError d.message (some (basename d.file)) (some (d.line + 1))) := by
  refine ⟨?_, ?_, ?_⟩
  · intro rc d rest t hd
    simp [mypyRunGo, hd]
  · intro d rest t hd
    simp [pyrightRecord, hd]
  · intro rc diags t e h
    by_cases hrc : rc = 0
    · simp [pyrightRun, hrc] at h
    · cases hfe : firstErrorDiag diags with
      | none => simp [pyrightRun, hrc, hfe] at h
      | some d =>
        simp [pyrightRun, hrc, hfe] at h
        exact ⟨hrc, d, rfl, firstErrorDiag_severity hfe, h.symm⟩

/-- Witness for the amended C3: a concrete mypy warning raises with its
message, file and line, and a concrete pyright warning is skipped by the
recording loop. -/
theorem non_note_diag_fatal_amended_witness :
    mypyRunGo 1 [mypyWarnDiag] [] = ([], some (mypyDiagError 1 mypyWarnDiag)) ∧
    pyrightRecord [pyrightWarnDiag] [] = pyrightRecord [] [] :=
  ⟨non_note_diag_fatal_amended.1 1 mypyWarnDiag [] [] (by decide),
    non_note_diag_fatal_amended.2.1 pyrightWarnDiag [] [] (by decide)⟩

/-- Counterexample to claim C4: a record that carries the variable name `""`
differs from the recovered expression text `"x"`, yet the verification step
raises no mismatch error — the empty name is falsy in the guarding
`if tc_result.var:`, so the recovered name is backfilled instead. -/
theorem empty_varname_backfill_cex :
    emptyVarRecord.var = some "" ∧ (some "" : Option String) ≠ some "x" ∧
    adapterStep sampleOracles (some "x") pos5 adEmptyVar =
      .ok ⟨"pyright", [(pos5, ⟨some "x", "int"⟩)]⟩ := by
  refine ⟨rfl, by decide, by decide⟩

/-- Claim C4 as amended: if the recorded `TypeRecord` carries a nonempty
variable name, verification raises a variable-name-mismatch error exactly
when that name differs from the expression text recovered from the call
site, and proceeds with the record untouched when they are equal; if the
recorded name is absent or empty, verification backfills the recovered name
into the stored record in place instead of failing. -/
theorem varname_check_amended (vn : Option String) (pos : FilePos)
    (tc : VarType) (ad : Adapter) :
    (∀ v, tc.var = some v → v ≠ "" → vn ≠ some v →
      nameCheckStage vn pos tc ad = .error (.tcError
        ("Variable name should be \"" ++ v ++ "\", but got \""
          ++ pyOptStr vn ++ "\"")
        (some pos.file) (some pos.lineno))) ∧
    (∀ v, tc.var = some v → v ≠ "" → vn = some v →
      nameCheckStage vn pos tc ad = .ok ad) ∧
    (tc.var = none ∨ tc.var = some "" →
      nameCheckStage vn pos tc ad =
        .ok ⟨ad.id, insertTable ad.table pos ⟨vn, tc.type⟩⟩) := by
  refine ⟨?_, ?_, ?_⟩
  · intro v hv hne hvn
    simp [nameCheckStage, hv, hne, hvn]
  · intro v hv hne hvn
    simp [nameCheckStage, hv, hne, hvn]
  · intro hv
    rcases hv with hv | hv <;> simp [nameCheckStage, hv]

/-- Witness for the amended C4: a nonempty recorded name `"y"` against the
recovered text `"x"` raises the mismatch error at the concrete position. -/
theorem varname_check_amended_witness :
    nameCheckStage (some "x") pos5 ⟨some "y", "int"⟩ sampleAd =
      .error (.tcError "Variable name should be \"y\", but got \"x\""
        (some "t.py") (some 5)) :=
  (varname_check_amended (some "x") pos5 ⟨some "y", "int"⟩ sampleAd).1 "y"
    rfl (by decide) (by decide)

/-- Claim C5: on an outermost dotted attribute chain whose unparsed prefix
fails to import as a module, the collector rewrites the node to the bare
trailing name and sets the modified flag when the bare name evaluates
against the caller's namespace plus the cache, and otherwise raises a
`NameError` naming both the dotted prefix form and the bare name form. -/
theorem dotted_fallback_bare_name (env : NameEnv) (v : TExpr) (a : String)
    (st : CState) (himp : env.importMod (unparse v) = none) :
    (env.evalOk a st.collected = true →
      tvisit env false (.attr v a) st = .ok (.name a, ⟨st.collected, true⟩)) ∧
    (env.evalOk a st.collected = false →
      tvisit env false (.attr v a) st = .error (.nameError
        ("Cannot resolve \"" ++ unparse v ++ "\" or \"" ++ a ++ "\""))) := by
  constructor <;> intro hev <;> simp [tvisit, himp, hev]

/-- Witness for C5: with no importable modules, the dotted reference
`lxml.ok` resolves through the bare name `ok` in the caller namespace and
marks the tree modified, while `lxml.bad` raises naming both forms. -/
theorem dotted_fallback_bare_name_witness :
    sampleNameEnv.importMod (unparse (.name "lxml")) = none ∧
    tvisit sampleNameEnv false (.attr (.name "lxml") "ok")
        ⟨initialCache "B" "T", false⟩ =
      .ok (.name "ok", ⟨initialCache "B" "T", true⟩) ∧
    tvisit sampleNameEnv false (.attr (.name "lxml") "bad")
        ⟨initialCache "B" "T", false⟩ =
      .error (.nameError "Cannot resolve \"lxml\" or \"bad\"") :=
  ⟨rfl,
    (dotted_fallback_bare_name sampleNameEnv (.name "lxml") "ok"
      ⟨initialCache "B" "T", false⟩ rfl).1 (by decide),
    (dotted_fallback_bare_name sampleNameEnv (.name "lxml") "bad"
      ⟨initialCache "B" "T", false⟩ rfl).2 (by decide)⟩

/-- Claim C6: a bare name resolves through three stages — evaluation against
the caller namespace plus the cache, import as a module, then probing the
builtins and typing namespaces for the attribute — succeeding as soon as any
stage resolves it, and raising a `NameError` only when every stage fails. -/
theorem bare_name_three_stage_resolution (env : NameEnv) (n : String)
    (isP : Bool) (st : CState) (B T : RtObj)
    (hb : lookupCache st.collected "builtins" = some B)
    (ht : lookupCache st.collected "typing" = some T) :
    (exceptOk (tvisit env isP (.name n) st) =
      (env.evalOk n st.collected || (env.importMod n).isSome
        || (env.attrOf B n).isSome || (env.attrOf T n).isSome)) ∧
    (env.evalOk n st.collected = false → env.importMod n = none →
      env.attrOf B n = none → env.attrOf T n = none →
      tvisit env isP (.name n) st =
        .error (.nameError ("Cannot resolve \"" ++ n ++ "\""))) := by
  constructor
  · by_cases hev : env.evalOk n st.collected
    · simp [tvisit, hev, exceptOk]
    · cases him : env.importMod n with
      | some mod => simp [tvisit, hev, him, exceptOk]
      | none =>
        cases hB : env.attrOf B n with
        | some o => simp [tvisit, hev, him, hb, hB, exceptOk]
        | none =>
          cases hT : env.attrOf T n with
          | some o => simp [tvisit, hev, him, hb, hB, ht, hT, exceptOk]
          | none => simp [tvisit, hev, him, hb, hB, ht, hT, exceptOk]
  · intro hev him hB hT
    simp [tvisit, hev, him, hb, hB, ht, hT]

/-- Witness for C6: with every stage failing, the bare name `bad` raises the
resolution error, and with the caller namespace resolving `ok` the collector
succeeds. -/
theorem bare_name_three_stage_resolution_witness :
    lookupCache (initialCache "B" "T") "builtins" = some "B" ∧
    tvisit sampleNameEnv false (.name "bad") ⟨initialCache "B" "T", false⟩ =
      .error (.nameError "Cannot resolve \"bad\"") ∧
    exceptOk (tvisit sampleNameEnv false (.name "ok")
      ⟨initialCache "B" "T", false⟩) = true :=
  ⟨rfl,
    (bare_name_three_stage_resolution sampleNameEnv "bad" false
      ⟨initialCache "B" "T", false⟩ "B" "T" rfl rfl).2 (by decide) rfl rfl rfl,
    (bare_name_three_stage_resolution sampleNameEnv "ok" false
      ⟨initialCache "B" "T", false⟩ "B" "T" rfl rfl).1⟩

/-- Claim C7: when the structural check of a subscripted type reference
raises a not-subscriptable `TypeError`, the engine retries the check exactly
once, against the unparsed subscript value with the parameters dropped; a
mismatch from the retry is attributed to the adapter, and any further
`TypeError` from the retry (the deeper-nesting case, where the base is still
parameterized) propagates with no further fallback, failing the call. -/
theorem subscript_retry_once (check : String → CheckOutcome)
    (adapterId txt : String) (v s : TExpr) (m : String)
    (h1 : check txt = .typeError m)
    (h2 : strContains m "is not subscriptable" = true) :
    (check (unparse v) = .passed →
      checkPhase check adapterId txt (.subscript v s) = none) ∧
    (∀ m2, check (unparse v) = .typeCheckError m2 →
      checkPhase check adapterId txt (.subscript v s) =
        some (.typeCheckFail ("(" ++ adapterId ++ ") " ++ m2))) ∧
    (∀ m2, check (unparse v) = .typeError m2 →
      checkPhase check adapterId txt (.subscript v s) =
        some (.typeErr m2)) := by
  refine ⟨?_, ?_, ?_⟩
  · intro hr
    simp [checkPhase, h1, h2, hr]
  · intro m2 hr
    simp [checkPhase, h1, h2, hr]
  · intro m2 hr
    simp [checkPhase, h1, h2, hr]

/-- Witness for C7: under the sample check oracle, `E[int]` hits the
not-subscriptable error and the retry on the bare base `E` reports a
mismatch attributed to the pyright adapter. -/
theorem subscript_retry_once_witness :
    sampleCheck "E[int]" = .typeError "type object is not subscriptable" ∧
    checkPhase sampleCheck "pyright" "E[int]"
        (.subscript (.name "E") (.name "int")) =
      some (.typeCheckFail "(pyright) mismatch here") :=
  ⟨by decide,
    (subscript_retry_once sampleCheck "pyright" "E[int]" (.name "E")
      (.name "int") "type object is not subscriptable" (by decide)
      (by decide)).2.1 "mismatch here" (by decide)⟩

/-- Claim C8: every entry the pyright recording loop adds to the result
table comes from an information-severity diagnostic whose reveal message
parses, and its position carries the basename of the reported file and the
0-based reported line plus one — the 1-based source line. -/
theorem pyright_lineno_one_based (diags : List PyrightDiag) (t : Table)
    (p : FilePos) (v : VarType)
    (hmem : (p, v) ∈ pyrightRecord diags t) :
    (p, v) ∈ t ∨ ∃ d ∈ diags, d.severity = "information" ∧
      ∃ varName ty, parsePyrightMsg d.message = some (varName, ty) ∧
        p = ⟨basename d.file, d.line + 1⟩ ∧ v = ⟨some varName, ty⟩ := by
  induction diags generalizing t with
  | nil =>
    simp [pyrightRecord] at hmem
    exact Or.inl hmem
  | cons a rest ih =>
    by_cases ha : a.severity = "information"
    · cases hm : parsePyrightMsg a.message with
      | none =>
        rw [pyrightRecord, if_neg (by simp [ha]), hm] at hmem
        rcases ih _ hmem with h | ⟨d, hd, h⟩
        · exact Or.inl h
        · exact Or.inr ⟨d, List.mem_cons_of_mem _ hd, h⟩
      | some pr =>
        obtain ⟨varName, ty⟩ := pr
        rw [pyrightRecord, if_neg (by simp [ha]), hm] at hmem
        rcases ih _ hmem with h | ⟨d, hd, h⟩
        · rcases mem_insertTable h with ⟨hp, hv⟩ | h2
          · exact Or.inr ⟨a, List.mem_cons_self a rest,
              ha, varName, ty, hm, hp, hv⟩
          · exact Or.inl h2
        · exact Or.inr ⟨d, List.mem_cons_of_mem _ hd, h⟩
    · rw [pyrightRecord, if_pos (by simp [ha])] at hmem
      rcases ih _ hmem with h | ⟨d, hd, h⟩
      · exact Or.inl h
      · exact Or.inr ⟨d, List.mem_cons_of_mem _ hd, h⟩

/-- Witness for C8: the concrete information diagnostic at reported line 3
yields exactly the entry at 1-based line 4. -/
theorem pyright_lineno_one_based_witness :
    ((⟨"t.py", 4⟩ : FilePos), (⟨some "x", "int"⟩ : VarType)) ∈
      pyrightRecord [pyrightInfoDiag] [] ∧
    (((⟨"t.py", 4⟩ : FilePos), (⟨some "x", "int"⟩ : VarType)) ∈ ([] : Table) ∨
      ∃ d ∈ [pyrightInfoDiag], d.severity = "information" ∧
        ∃ varName ty, parsePyrightMsg d.message = some (varName, ty) ∧
          (⟨"t.py", 4⟩ : FilePos) = ⟨basename d.file, d.line + 1⟩ ∧
          (⟨some "x", "int"⟩ : VarType) = ⟨some varName, ty⟩) :=
  ⟨by decide, pyright_lineno_one_based [pyrightInfoDiag] [] ⟨"t.py", 4⟩
    ⟨some "x", "int"⟩ (by decide)⟩

/-- The basename accumulator never holds a separator if it starts without
one. -/
theorem basenameAux_no_slash (l : List Char) :
    ∀ acc, '/' ∉ acc → '/' ∉ basenameAux acc l := by
  induction l with
  | nil => intro acc h; simpa [basenameAux] using h
  | cons c rest ih =>
    intro acc h
    by_cases hc : c = '/'
    · subst hc
      rw [basenameAux]
      exact ih [] (by simp)
    · rw [basenameAux.eq_def]
      cases rest <;> simp [hc] <;>
        exact ih (acc ++ [c]) (by simp [h, Ne.symm hc])

/-- A basename never contains a path separator. -/
theorem basename_no_slash (s : String) :
    (basename s).toList.contains '/' = false := by
  simpa using basenameAux_no_slash s.toList [] (by simp)

/-- Looking up a separator-free position in a table whose every key contains
a separator finds nothing. -/
theorem lookupTable_all_slash_none (t : Table) (pos : FilePos)
    (hpos : pos.file.toList.contains '/' = false)
    (h : ∀ e ∈ t, e.1.file.toList.contains '/' = true) :
    lookupTable t pos = none := by
  induction t with
  | nil => rfl
  | cons e rest ih =>
    obtain ⟨q, w⟩ := e
    have hq : q.file.toList.contains '/' = true :=
      h (q, w) (List.mem_cons_self _ _)
    have hne : q ≠ pos := by
      intro he
      rw [he] at hq
      rw [hq] at hpos
      cases hpos
    rw [lookupTable, if_neg hne]
    exact ih fun e he => h e (List.mem_cons_of_mem _ he)

/-- Claim C10: the `_testutils` mypy adapter keys its table by the file path
exactly as the checker reported it, while the verification engine always
looks up under the caller file's basename, which never contains a separator;
so when every recorded key keeps directory components, the lookup misses and
the call raises the no-inferred-type error for that adapter. -/
theorem testutils_mypy_key_mismatch (f : String) (l : Nat) (env : Oracles)
    (vn : Option String) (ad : Adapter) (diags : List MypyDiag) (t : Table)
    (p : FilePos) (v : VarType) :
    ((p, v) ∈ (tmypyRunGo diags t).1 →
      (p, v) ∈ t ∨ ∃ d ∈ diags, p = ⟨d.file, d.line⟩) ∧
    ((basename f).toList.contains '/' = false) ∧
    ((∀ e ∈ ad.table, e.1.file.toList.contains '/' = true) →
      reveal_type_wrapper env vn f l [ad] (0 : Nat) =
        .error (.tcError ("No inferred type from " ++ ad.id)
          (some (basename f)) (some l))) := by
  refine ⟨?_, basename_no_slash f, ?_⟩
  · intro hmem
    induction diags generalizing t with
    | nil =>
      rw [tmypyRunGo] at hmem
      exact Or.inl hmem
    | cons a rest ih =>
      by_cases ha : a.severity = "note"
      · cases hm : parseMypyMsg a.message with
        | none =>
          rw [tmypyRunGo, if_neg (by simp [ha]), hm] at hmem
          rcases ih _ hmem with h | ⟨d, hd, h⟩
          · exact Or.inl h
          · exact Or.inr ⟨d, List.mem_cons_of_mem _ hd, h⟩
        | some ty =>
          rw [tmypyRunGo, if_neg (by simp [ha]), hm] at hmem
          rcases ih _ hmem with h | ⟨d, hd, h⟩
          · rcases mem_insertTable h with ⟨hp, _⟩ | h2
            · exact Or.inr ⟨a, List.mem_cons_self a rest, hp⟩
            · exact Or.inl h2
          · exact Or.inr ⟨d, List.mem_cons_of_mem _ hd, h⟩
      · rw [tmypyRunGo, if_pos (by simp [ha])] at hmem
        exact Or.inl hmem
  · intro hall
    have hlook : lookupTable ad.table ⟨basename f, l⟩ = none :=
      lookupTable_all_slash_none ad.table ⟨basename f, l⟩
        (basename_no_slash f) hall
    simp [reveal_type_wrapper, revealTypeGo, adapterStep, hlook]

/-- Witness for C10: the concrete table recorded under `tests/t.py` is
invisible to a call whose caller frame file is `home/tests/t.py` — the
basename lookup misses and the no-inferred-type error names the adapter. -/
theorem testutils_mypy_key_mismatch_witness :
    (∀ e ∈ tmypyAd.table, e.1.file.toList.contains '/' = true) ∧
    reveal_type_wrapper sampleOracles (some "x") "home/tests/t.py" 5 [tmypyAd]
        (0 : Nat) =
      .error (.tcError "No inferred type from mypy" (some "t.py") (some 5)) :=
  ⟨by decide,
    (testutils_mypy_key_mismatch "home/tests/t.py" 5 sampleOracles (some "x")
      tmypyAd [] [] ⟨"t.py", 5⟩ ⟨none, "int"⟩).2.2 (by decide)⟩
